import Mathlib

/-!
Shallow embedding of the visitor-management service layer of this repository
(`src/services/visitorService.ts`, class `VisitorService`) together with the
UI-level evacuation handler (`handleEmergencyEvacuation` in the application
root component).

Modelling conventions:
* A Firestore document of the `visitors` collection is a `Doc`: an `id` plus
  a `DocData` record in which every stored field is optional (`Option _`),
  since arbitrary documents may lack any field.  Timestamps are modelled as
  milliseconds (`Nat`); `Timestamp.toDate` is the identity in this model.
* A collection snapshot is a `List Doc` in the backend's default order
  (document-id ascending).  A `where` equality / range clause keeps exactly
  the documents whose field is present and satisfies the clause; an
  `orderBy checkInTime desc` clause is modelled as a stable descending sort
  on the `checkInTime` key (`List.insertionSort`), which together with the
  id-ascending snapshot order reproduces the backend's id tie-breaking.
  JavaScript `Array.prototype.sort` is stable, so the client-side fallback
  sorts are modelled by the same stable sort.
* JavaScript truthiness of the string fallbacks (`x || ''`, `x || null`) is
  modelled explicitly (`jsOrStr`, `jsTruthy`): the empty string is falsy.
* Each fallible query method takes an explicit outcome parameter describing
  how the backend call ended (`QueryOutcome`, or a `Bool` error flag for
  methods without a `failed-precondition` branch); wall-clock reads
  (`new Date()`, `Date.now()`) and random draws are passed as parameters;
  `addDoc`'s fresh document id is a parameter and the write appends to the
  snapshot list.
* Audit-log writes (`logAudit`) go to a separate collection, never touch the
  `visitors` collection, and swallow their own errors; they are modelled
  separately (`getAllAuditLogs`) and elided from the visitor-state
  transitions, which they do not affect.
-/

namespace ProjectNayana

/-- JavaScript `x || d` on an optional string: `undefined` and `""` are falsy. -/
def jsOrStr (x : Option String) (d : String) : String :=
  match x with
  | some s => if s = "" then d else s
  | none => d

/-- JavaScript `x || null` on an optional string: `undefined` and `""` become `null`. -/
def jsTruthy (x : Option String) : Option String :=
  match x with
  | some s => if s = "" then none else some s
  | none => none

/-- Stored `healthScreening` sub-object.  `screeningDate` is an optional
timestamp; `testResult` stands for the remaining fields carried through
unchanged by the object spread in `mapDocToVisitor`. -/
structure HealthScreening where
  screeningDate : Option Nat
  testResult : String
  deriving Repr, DecidableEq

/-- The conversion `{...data.healthScreening, screeningDate:
data.healthScreening.screeningDate?.toDate() || null}`: a `Date` object is
always truthy, so the optional date passes through unchanged. -/
def mapHealthScreening (hs : HealthScreening) : HealthScreening :=
  { hs with screeningDate := hs.screeningDate }

/-- Fields of a stored document of the `visitors` collection.  Every field is
optional: a malformed or partially written document may lack any of them. -/
structure DocData where
  fullName : Option String
  phoneNumber : Option String
  photoURL : Option String
  residentName : Option String
  roomNumber : Option String
  purpose : Option String
  visitorIdNumber : Option String
  checkInTime : Option Nat
  checkOutTime : Option Nat
  status : Option String
  qrCode : Option String
  badgeNumber : Option String
  healthScreening : Option HealthScreening
  deriving Repr, DecidableEq

/-- The document with every field missing. -/
def DocData.empty : DocData :=
  ⟨none, none, none, none, none, none, none, none, none, none, none, none, none⟩

/-- A stored document: backend-assigned id plus data. -/
structure Doc where
  id : String
  data : DocData
  deriving Repr, DecidableEq

/-- The `visitors` collection snapshot, in default (id-ascending) order. -/
abbrev DB := List Doc

/-- The in-memory `Visitor` object produced by `mapDocToVisitor`. -/
structure Visitor where
  id : String
  fullName : String
  phoneNumber : String
  photoURL : Option String
  residentName : String
  roomNumber : String
  purpose : String
  visitorIdNumber : String
  checkInTime : Option Nat
  checkOutTime : Option Nat
  status : String
  qrCode : String
  badgeNumber : String
  healthScreening : Option HealthScreening
  deriving Repr, DecidableEq

/-- `VisitorService.mapDocToVisitor`: total conversion of a stored document
into a `Visitor`, with a JavaScript-truthiness default for every field. -/
def mapDocToVisitor (d : Doc) : Visitor where
  id := d.id
  fullName := jsOrStr d.data.fullName ""
  phoneNumber := jsOrStr d.data.phoneNumber ""
  photoURL := jsTruthy d.data.photoURL
  residentName := jsOrStr d.data.residentName ""
  roomNumber := jsOrStr d.data.roomNumber ""
  purpose := jsOrStr d.data.purpose ""
  visitorIdNumber := jsOrStr d.data.visitorIdNumber ""
  checkInTime := d.data.checkInTime
  checkOutTime := d.data.checkOutTime
  status := jsOrStr d.data.status "checked-in"
  qrCode := jsOrStr d.data.qrCode ""
  badgeNumber := jsOrStr d.data.badgeNumber ""
  healthScreening := d.data.healthScreening.map mapHealthScreening

/-- Sort key of the client-side comparators `(b.checkInTime?.getTime() || 0) -
(a.checkInTime?.getTime() || 0)`: missing time counts as 0. -/
def visitorTimeKey (v : Visitor) : Nat :=
  v.checkInTime.getD 0

/-- The same key read off a stored document (the server-side order key). -/
def docTimeKey (d : Doc) : Nat :=
  d.data.checkInTime.getD 0

/-- Newest-first order on stored documents. -/
def docNewerFirst (a b : Doc) : Prop :=
  docTimeKey b ≤ docTimeKey a

/-- Newest-first order on visitors (the client-side comparator). -/
def visitorNewerFirst (a b : Visitor) : Prop :=
  visitorTimeKey b ≤ visitorTimeKey a

instance : DecidableRel docNewerFirst :=
  fun a b => inferInstanceAs (Decidable (docTimeKey b ≤ docTimeKey a))

instance : DecidableRel visitorNewerFirst :=
  fun a b => inferInstanceAs (Decidable (visitorTimeKey b ≤ visitorTimeKey a))

instance : IsTotal Doc docNewerFirst :=
  ⟨fun a b => (Nat.le_total (docTimeKey b) (docTimeKey a)).symm.symm⟩

instance : IsTrans Doc docNewerFirst :=
  ⟨fun _ _ _ hab hbc => Nat.le_trans hbc hab⟩

instance : IsTotal Visitor visitorNewerFirst :=
  ⟨fun a b => (Nat.le_total (visitorTimeKey b) (visitorTimeKey a)).symm.symm⟩

instance : IsTrans Visitor visitorNewerFirst :=
  ⟨fun _ _ _ hab hbc => Nat.le_trans hbc hab⟩

/-- How a backend query call ended: success, the index-missing
`failed-precondition` error, or any other error. -/
inductive QueryOutcome where
  | ok
  | failedPrecondition
  | otherError
  deriving Repr, DecidableEq

/-- The `where('status', '==', 'checked-in')` clause. -/
def isCheckedInDoc (d : Doc) : Bool :=
  d.data.status == some "checked-in"

/-- `getActiveVisitors`, primary path: status equality clause plus
`orderBy('checkInTime', 'desc')`, then `mapDocToVisitor` on each document. -/
def getActiveVisitorsPrimary (db : DB) : List Visitor :=
  (List.insertionSort docNewerFirst (db.filter isCheckedInDoc)).map mapDocToVisitor

/-- `getActiveVisitors`, fallback path on `failed-precondition`: status
equality clause only, then a client-side newest-first sort. -/
def getActiveVisitorsFallback (db : DB) : List Visitor :=
  List.insertionSort visitorNewerFirst ((db.filter isCheckedInDoc).map mapDocToVisitor)

/-- `VisitorService.getActiveVisitors`: primary indexed query; on
`failed-precondition` the fallback query; any other error is swallowed and
yields the empty list. -/
def getActiveVisitors (db : DB) (o : QueryOutcome) : List Visitor :=
  match o with
  | .ok => getActiveVisitorsPrimary db
  | .failedPrecondition => getActiveVisitorsFallback db
  | .otherError => []

/-- `getTodayVisitors`, primary path.  The query is
`query(visitorsCollection, orderBy('checkInTime', 'desc'))`: it carries no
`where` clause on the date, so it returns every stored document, newest
first. -/
def getTodayVisitorsPrimary (db : DB) : List Visitor :=
  (List.insertionSort docNewerFirst db).map mapDocToVisitor

/-- `getTodayVisitors`, fallback path on `failed-precondition`: fetch all
documents, keep those with a present `checkInTime` at or after the start of
the current day (`todayStart`), and sort newest first client-side. -/
def getTodayVisitorsFallback (db : DB) (todayStart : Nat) : List Visitor :=
  List.insertionSort visitorNewerFirst
    ((db.map mapDocToVisitor).filter (fun v =>
      match v.checkInTime with
      | some t => decide (todayStart ≤ t)
      | none => false))

/-- `VisitorService.getTodayVisitors`: indexed query first; on
`failed-precondition` the client-side fallback; any other error yields
the empty list.  `todayStart` is the start-of-day timestamp computed from
`new Date()`. -/
def getTodayVisitors (db : DB) (todayStart : Nat) (o : QueryOutcome) : List Visitor :=
  match o with
  | .ok => getTodayVisitorsPrimary db
  | .failedPrecondition => getTodayVisitorsFallback db todayStart
  | .otherError => []

/-- Milliseconds per day. -/
def msPerDay : Nat := 86400000

/-- Start of the civil day containing timestamp `t` (`date-fns` `startOfDay`,
modelled on whole days of the timeline). -/
def dayStart (t : Nat) : Nat :=
  (t / msPerDay) * msPerDay

/-- End of the civil day containing timestamp `t` (`date-fns` `endOfDay`:
23:59:59.999). -/
def dayEnd (t : Nat) : Nat :=
  dayStart t + (msPerDay - 1)

/-- The range clause of `getVisitorsByDateRange`: `checkInTime` present and
within `[startOfDay startDate, endOfDay endDate]` inclusive. -/
def inDateRange (s e : Nat) (ct : Option Nat) : Bool :=
  match ct with
  | some t => decide (dayStart s ≤ t ∧ t ≤ dayEnd e)
  | none => false

/-- `getVisitorsByDateRange`, primary path: two range clauses plus
`orderBy('checkInTime', 'desc')`. -/
def getVisitorsByDateRangePrimary (db : DB) (s e : Nat) : List Visitor :=
  (List.insertionSort docNewerFirst
    (db.filter (fun d => inDateRange s e d.data.checkInTime))).map mapDocToVisitor

/-- `getVisitorsByDateRange`, fallback path (taken on any error): fetch all,
filter client-side on `v.checkInTime && v.checkInTime >= startOfDay(startDate)
&& v.checkInTime <= endOfDay(endDate)`, sort newest first. -/
def getVisitorsByDateRangeFallback (db : DB) (s e : Nat) : List Visitor :=
  List.insertionSort visitorNewerFirst
    ((db.map mapDocToVisitor).filter (fun v => inDateRange s e v.checkInTime))

/-- `VisitorService.getVisitorsByDateRange`: the catch clause is unconditional,
so `errored = true` selects the fallback for any failure of the primary
query. -/
def getVisitorsByDateRange (db : DB) (s e : Nat) (errored : Bool) : List Visitor :=
  if errored then getVisitorsByDateRangeFallback db s e
  else getVisitorsByDateRangePrimary db s e

/-- `VisitorService.generateVisitorIdNumber`: concatenation of the literal
`VID-`, the wall-clock milliseconds, and the 6-character uppercased random
suffix drawn from `Math.random().toString(36)`. -/
def generateVisitorIdNumber (nowMs : Nat) (randSuffix : String) : String :=
  "VID-" ++ toString nowMs ++ "-" ++ randSuffix

/-- `VisitorService.generateQRCode`: `JSON.stringify({t:'v', id, ts})`. -/
def generateQRCode (visitorIdNumber : String) (nowMs : Nat) : String :=
  "\x7b\"t\":\"v\",\"id\":\"" ++ visitorIdNumber ++ "\",\"ts\":" ++ toString nowMs ++ "\x7d"

/-- `VisitorService.generateBadgeNumber`: `B` followed by the last six digits
of the wall-clock milliseconds. -/
def generateBadgeNumber (nowMs : Nat) : String :=
  "B" ++ (toString nowMs).takeRight 6

/-- The check-in form data: `Omit<Visitor, 'id' | 'checkInTime' | 'qrCode' |
'badgeNumber' | 'visitorIdNumber'> & \x7b visitorIdNumber?: string \x7d`,
restricted to the fields the service stores and reads back. -/
structure VisitorInput where
  fullName : String
  phoneNumber : String
  photoURL : Option String
  residentName : String
  roomNumber : String
  purpose : String
  visitorIdNumber : Option String
  checkOutTime : Option Nat
  healthScreening : Option HealthScreening
  deriving Repr, DecidableEq

/-- `VisitorService.checkInVisitor`: build the payload (generated or reused
visitor id number, QR code, badge number, `checkInTime = now`,
`status = 'checked-in'`, health screening with a defaulted screening date),
append it to the collection under the fresh id `newDocId`, and return the
mapped `Visitor`.  `nowMs` is the wall clock and `randSuffix` the random
draw. -/
def checkInVisitor (db : DB) (visitorData : VisitorInput) (isReturningVisitor : Bool)
    (nowMs : Nat) (randSuffix : String) (newDocId : String) : DB × Visitor :=
  let visitorIdNumber :=
    match isReturningVisitor, visitorData.visitorIdNumber with
    | true, some s => if s = "" then generateVisitorIdNumber nowMs randSuffix else s
    | _, _ => generateVisitorIdNumber nowMs randSuffix
  let payload : DocData :=
    { fullName := some visitorData.fullName
      phoneNumber := some visitorData.phoneNumber
      photoURL := visitorData.photoURL
      residentName := some visitorData.residentName
      roomNumber := some visitorData.roomNumber
      purpose := some visitorData.purpose
      visitorIdNumber := some visitorIdNumber
      checkInTime := some nowMs
      checkOutTime := visitorData.checkOutTime
      status := some "checked-in"
      qrCode := some (generateQRCode visitorIdNumber nowMs)
      badgeNumber := some (generateBadgeNumber nowMs)
      healthScreening := visitorData.healthScreening.map (fun hs =>
        { hs with screeningDate := some (hs.screeningDate.getD nowMs) }) }
  (db ++ [⟨newDocId, payload⟩], mapDocToVisitor ⟨newDocId, payload⟩)

/-- The field update `updateDoc(visitorRef, \x7b checkOutTime, status:
'checked-out' \x7d)` applied to one document. -/
def checkOutUpdate (nowMs : Nat) (d : Doc) : Doc :=
  { d with data := { d.data with checkOutTime := some nowMs, status := some "checked-out" } }

/-- `VisitorService.checkOutVisitor`: `updateDoc` on the referenced document;
the backend rejects the update (the method throws) when no document has the
given id, which the model renders as `none`. -/
def checkOutVisitor (db : DB) (visitorId : String) (nowMs : Nat) : Option DB :=
  if db.any (fun d => d.id == visitorId) then
    some (db.map (fun d => if d.id = visitorId then checkOutUpdate nowMs d else d))
  else none

/-- The field update of `emergencyEvacuation` applied to one document. -/
def evacuationUpdate (nowMs : Nat) (d : Doc) : Doc :=
  { d with data := { d.data with status := some "emergency-evacuated", checkOutTime := some nowMs } }

/-- `VisitorService.emergencyEvacuation`: one independent `updateDoc` per
listed id, issued together through `Promise.all`.  Each write that finds its
document is applied; a write whose document is missing fails.  The second
component records whether any write failed (the rejection of `Promise.all`);
writes that succeeded stay applied regardless. -/
def emergencyEvacuation (db : DB) (visitorIds : List String) (nowMs : Nat) : DB × Bool :=
  (db.map (fun d => if visitorIds.contains d.id then evacuationUpdate nowMs d else d),
   visitorIds.any (fun i => !(db.any (fun d => d.id == i))))

/-- `handleEmergencyEvacuation` (application root component): await the bulk
evacuation and surface a single alert message — a fixed failure text on any
rejection, else a success text mentioning only the count of ids. -/
def handleEmergencyEvacuation (db : DB) (visitorIds : List String) (nowMs : Nat) :
    DB × String :=
  let r := emergencyEvacuation db visitorIds nowMs
  (r.1,
   if r.2 then "Emergency evacuation failed. Please try again."
   else "Emergency evacuation completed for " ++ toString visitorIds.length ++ " visitors.")

/-- `VisitorService.findVisitorByIdNumber`: equality query on
`visitorIdNumber`; `null` on an empty snapshot, the first document otherwise;
any error is swallowed into `null`. -/
def findVisitorByIdNumber (db : DB) (visitorIdNumber : String) (errored : Bool) :
    Option Visitor :=
  if errored then none
  else
    match db.filter (fun d => d.data.visitorIdNumber == some visitorIdNumber) with
    | [] => none
    | d :: _ => some (mapDocToVisitor d)

/-- The two fields `findVisitorByQRCode` reads off the parsed QR payload.
`JSON.parse` itself is external; the model receives its outcome: `none` for
a parse (or property access) exception, otherwise the optional string values
of the `id` and `visitorId` properties. -/
structure QRFields where
  id : Option String
  visitorId : Option String
  deriving Repr, DecidableEq

/-- `const id = parsed.id || parsed.visitorId` followed by the truthiness
test `if (id)`. -/
def extractQRId (f : QRFields) : Option String :=
  match jsTruthy f.id with
  | some s => some s
  | none => jsTruthy f.visitorId

/-- `VisitorService.findVisitorByQRCode`: the whole body is inside
`try/catch`, so a parse failure returns `null`; a missing or falsy id returns
`null`; otherwise the call delegates to `findVisitorByIdNumber`. -/
def findVisitorByQRCode (db : DB) (parsed : Option QRFields) (errored : Bool) :
    Option Visitor :=
  match parsed with
  | none => none
  | some f =>
    match extractQRId f with
    | some s => findVisitorByIdNumber db s errored
    | none => none

/-- `VisitorService.getAllVisitors`: map the whole snapshot; any error is
swallowed into the empty list. -/
def getAllVisitors (db : DB) (errored : Bool) : List Visitor :=
  if errored then [] else db.map mapDocToVisitor

/-- A stored document of the `audit_logs` collection, restricted to the
fields `getAllAuditLogs` touches. -/
structure AuditDoc where
  id : String
  action : String
  timestamp : Option Nat
  deriving Repr, DecidableEq

/-- `VisitorService.getAllAuditLogs`: spread each document and normalise the
timestamp (`doc.data().timestamp?.toDate() || null`); any error is swallowed
into the empty list. -/
def getAllAuditLogs (logs : List AuditDoc) (errored : Bool) : List AuditDoc :=
  if errored then []
  else logs.map (fun a => { a with timestamp := a.timestamp })

/-! ## Helper lemmas -/

/-- `mapDocToVisitor` preserves the sort key. -/
theorem visitorTimeKey_mapDocToVisitor (d : Doc) :
    visitorTimeKey (mapDocToVisitor d) = docTimeKey d := rfl

/-- The server-side sort commutes with `mapDocToVisitor`: sorting the
documents and mapping equals mapping and then client-sorting. -/
theorem map_insertionSort_docs (l : List Doc) :
    (List.insertionSort docNewerFirst l).map mapDocToVisitor =
      List.insertionSort visitorNewerFirst (l.map mapDocToVisitor) :=
  List.map_insertionSort docNewerFirst visitorNewerFirst mapDocToVisitor l
    (fun _ _ _ _ => Iff.rfl)

/-- Membership in a sorted, filtered, mapped snapshot, document-side filter. -/
theorem mem_sortDoc_filter_map {p : Doc → Bool} {db : DB} {v : Visitor} :
    v ∈ (List.insertionSort docNewerFirst (db.filter p)).map mapDocToVisitor ↔
      ∃ d, d ∈ db ∧ p d = true ∧ v = mapDocToVisitor d := by
  simp only [List.mem_map, List.mem_insertionSort, List.mem_filter]
  constructor
  · rintro ⟨d, ⟨hmem, hp⟩, hv⟩
    exact ⟨d, hmem, hp, hv.symm⟩
  · rintro ⟨d, hmem, hp, hv⟩
    exact ⟨d, ⟨hmem, hp⟩, hv.symm⟩

/-- Membership in a mapped, filtered, client-sorted snapshot, visitor-side
filter. -/
theorem mem_sortV_map_filter {p : Visitor → Bool} {db : DB} {v : Visitor} :
    v ∈ List.insertionSort visitorNewerFirst ((db.map mapDocToVisitor).filter p) ↔
      ∃ d, d ∈ db ∧ p (mapDocToVisitor d) = true ∧ v = mapDocToVisitor d := by
  simp only [List.mem_insertionSort, List.mem_filter, List.mem_map]
  constructor
  · rintro ⟨⟨d, hmem, hv⟩, hp⟩
    subst hv
    exact ⟨d, hmem, hp, rfl⟩
  · rintro ⟨d, hmem, hp, hv⟩
    subst hv
    exact ⟨⟨d, hmem, rfl⟩, hp⟩

/-- The status clause as a proposition. -/
theorem isCheckedInDoc_iff {d : Doc} :
    isCheckedInDoc d = true ↔ d.data.status = some "checked-in" := by
  simp [isCheckedInDoc]

/-- The range clause as a proposition. -/
theorem inDateRange_iff {s e : Nat} {ct : Option Nat} :
    inDateRange s e ct = true ↔ ∃ t, ct = some t ∧ dayStart s ≤ t ∧ t ≤ dayEnd e := by
  cases ct <;> simp [inDateRange]

/-- Both non-error paths of `getActiveVisitors` return the same list. -/
theorem activeVisitors_fallback_eq_primary (db : DB) :
    getActiveVisitorsFallback db = getActiveVisitorsPrimary db :=
  (map_insertionSort_docs (db.filter isCheckedInDoc)).symm

/-- Membership characterisation of the primary active-visitor query. -/
theorem mem_getActiveVisitorsPrimary {db : DB} {v : Visitor} :
    v ∈ getActiveVisitorsPrimary db ↔
      ∃ d, d ∈ db ∧ d.data.status = some "checked-in" ∧ v = mapDocToVisitor d := by
  unfold getActiveVisitorsPrimary
  rw [mem_sortDoc_filter_map]
  constructor
  · rintro ⟨d, hmem, hp, hv⟩
    exact ⟨d, hmem, isCheckedInDoc_iff.mp hp, hv⟩
  · rintro ⟨d, hmem, hp, hv⟩
    exact ⟨d, hmem, isCheckedInDoc_iff.mpr hp, hv⟩

/-! ## Claim theorems -/

/-- C5: For every database state, the fallback path of `getActiveVisitors`
(equality filter on status followed by a client-side sort) returns the same
list as the primary indexed path: the visitors with status `checked-in`
ordered by `checkInTime` descending. -/
theorem getActiveVisitors_paths_agree (db : DB) :
    getActiveVisitors db .failedPrecondition = getActiveVisitors db .ok ∧
    (∀ v, v ∈ getActiveVisitors db .ok ↔
      ∃ d, d ∈ db ∧ d.data.status = some "checked-in" ∧ v = mapDocToVisitor d) ∧
    List.Sorted visitorNewerFirst (getActiveVisitors db .ok) := by
  refine ⟨activeVisitors_fallback_eq_primary db, fun v => mem_getActiveVisitorsPrimary, ?_⟩
  show List.Sorted visitorNewerFirst (getActiveVisitorsPrimary db)
  rw [← activeVisitors_fallback_eq_primary db]
  exact List.sorted_insertionSort visitorNewerFirst _

/-- C7: For every error other than the index-missing `failed-precondition`
case, the query operations swallow the error and return an empty result:
`getActiveVisitors`, `getTodayVisitors`, `getAllVisitors` and
`getAllAuditLogs` return the empty list, and `findVisitorByIdNumber` returns
`null`. -/
theorem queries_swallow_errors (db : DB) (logs : List AuditDoc) (todayStart : Nat)
    (q : String) :
    getActiveVisitors db .otherError = [] ∧
    getTodayVisitors db todayStart .otherError = [] ∧
    getAllVisitors db true = [] ∧
    getAllAuditLogs logs true = [] ∧
    findVisitorByIdNumber db q true = none :=
  ⟨rfl, rfl, rfl, rfl, rfl⟩

/-- C3: For every pair of dates, `getVisitorsByDateRange` (on either of its
paths) returns exactly the visitors whose `checkInTime` lies within the
inclusive bounds — on or after the start of the day of `startDate` and on or
before the end of the day of `endDate` — and no record outside those
bounds. -/
theorem getVisitorsByDateRange_exact (db : DB) (s e : Nat) (errored : Bool) (v : Visitor) :
    v ∈ getVisitorsByDateRange db s e errored ↔
      ∃ d, d ∈ db ∧ v = mapDocToVisitor d ∧
        ∃ t, d.data.checkInTime = some t ∧ dayStart s ≤ t ∧ t ≤ dayEnd e := by
  cases errored with
  | false =>
    show v ∈ getVisitorsByDateRangePrimary db s e ↔ _
    unfold getVisitorsByDateRangePrimary
    rw [mem_sortDoc_filter_map]
    constructor
    · rintro ⟨d, hmem, hp, hv⟩
      exact ⟨d, hmem, hv, inDateRange_iff.mp hp⟩
    · rintro ⟨d, hmem, hv, ht⟩
      exact ⟨d, hmem, inDateRange_iff.mpr ht, hv⟩
  | true =>
    show v ∈ getVisitorsByDateRangeFallback db s e ↔ _
    unfold getVisitorsByDateRangeFallback
    rw [mem_sortV_map_filter]
    constructor
    · rintro ⟨d, hmem, hp, hv⟩
      exact ⟨d, hmem, hv, inDateRange_iff.mp hp⟩
    · rintro ⟨d, hmem, hv, ht⟩
      exact ⟨d, hmem, inDateRange_iff.mpr ht, hv⟩

/-- C1: Every visitor registered via `checkInVisitor` is stored with status
`checked-in` and `checkInTime` equal to the moment of check-in, and therefore
appears in the list returned by `getActiveVisitors` on each of its non-error
paths, which return exactly the visitors whose stored status is
`checked-in`. -/
theorem checkInVisitor_appears_active (db : DB) (input : VisitorInput) (isRet : Bool)
    (now : Nat) (suffix newDocId : String) (o : QueryOutcome)
    (ho : o ≠ QueryOutcome.otherError) :
    ∃ payload : DocData,
      (checkInVisitor db input isRet now suffix newDocId).1 = db ++ [⟨newDocId, payload⟩] ∧
      payload.status = some "checked-in" ∧
      payload.checkInTime = some now ∧
      (checkInVisitor db input isRet now suffix newDocId).2 =
        mapDocToVisitor ⟨newDocId, payload⟩ ∧
      (checkInVisitor db input isRet now suffix newDocId).2 ∈
        getActiveVisitors (checkInVisitor db input isRet now suffix newDocId).1 o ∧
      (∀ (db₀ : DB) (w : Visitor),
        w ∈ getActiveVisitors db₀ o ↔
          ∃ d, d ∈ db₀ ∧ d.data.status = some "checked-in" ∧ w = mapDocToVisitor d) := by
  have hchar : ∀ (db₀ : DB) (w : Visitor),
      w ∈ getActiveVisitors db₀ o ↔
        ∃ d, d ∈ db₀ ∧ d.data.status = some "checked-in" ∧ w = mapDocToVisitor d := by
    intro db₀ w
    cases o with
    | ok => exact mem_getActiveVisitorsPrimary
    | failedPrecondition =>
      show w ∈ getActiveVisitorsFallback db₀ ↔ _
      rw [activeVisitors_fallback_eq_primary db₀]
      exact mem_getActiveVisitorsPrimary
    | otherError => exact absurd rfl ho
  refine ⟨_, rfl, rfl, rfl, rfl, ?_, hchar⟩
  rw [hchar]
  refine ⟨⟨newDocId, _⟩, ?_, rfl, rfl⟩
  exact List.mem_append_right db (List.mem_singleton.mpr rfl)

/-- C2: `checkOutVisitor` updates only the `checkOutTime` and `status` fields
of the identified visitor — setting status to `checked-out` whatever the
prior status was — and leaves every other field of that visitor and every
other record unchanged; afterwards that visitor no longer appears in the
result of `getActiveVisitors`. -/
theorem checkOutVisitor_frame_effect (db : DB) (visitorId : String) (now : Nat)
    (h : ∃ d, d ∈ db ∧ d.id = visitorId) :
    ∃ db2, checkOutVisitor db visitorId now = some db2 ∧
      db2.length = db.length ∧
      (∀ i : Fin db.length, ∀ hi : i.val < db2.length,
        ((db.get i).id ≠ visitorId → db2.get ⟨i.val, hi⟩ = db.get i) ∧
        ((db.get i).id = visitorId →
          (db2.get ⟨i.val, hi⟩).id = (db.get i).id ∧
          (db2.get ⟨i.val, hi⟩).data.fullName = (db.get i).data.fullName ∧
          (db2.get ⟨i.val, hi⟩).data.phoneNumber = (db.get i).data.phoneNumber ∧
          (db2.get ⟨i.val, hi⟩).data.photoURL = (db.get i).data.photoURL ∧
          (db2.get ⟨i.val, hi⟩).data.residentName = (db.get i).data.residentName ∧
          (db2.get ⟨i.val, hi⟩).data.roomNumber = (db.get i).data.roomNumber ∧
          (db2.get ⟨i.val, hi⟩).data.purpose = (db.get i).data.purpose ∧
          (db2.get ⟨i.val, hi⟩).data.visitorIdNumber = (db.get i).data.visitorIdNumber ∧
          (db2.get ⟨i.val, hi⟩).data.checkInTime = (db.get i).data.checkInTime ∧
          (db2.get ⟨i.val, hi⟩).data.qrCode = (db.get i).data.qrCode ∧
          (db2.get ⟨i.val, hi⟩).data.badgeNumber = (db.get i).data.badgeNumber ∧
          (db2.get ⟨i.val, hi⟩).data.healthScreening = (db.get i).data.healthScreening ∧
          (db2.get ⟨i.val, hi⟩).data.status = some "checked-out" ∧
          (db2.get ⟨i.val, hi⟩).data.checkOutTime = some now)) ∧
      (∀ o : QueryOutcome, ∀ v ∈ getActiveVisitors db2 o, v.id ≠ visitorId) := by
  obtain ⟨d0, hd0, hid0⟩ := h
  have hany : db.any (fun d => d.id == visitorId) = true := by
    rw [List.any_eq_true]
    exact ⟨d0, hd0, by simp [hid0]⟩
  refine ⟨db.map (fun d => if d.id = visitorId then checkOutUpdate now d else d),
    by simp [checkOutVisitor, hany], by simp, ?_, ?_⟩
  · intro i hi
    constructor
    · intro hne
      simp only [List.get_eq_getElem] at hne
      simp only [List.get_eq_getElem, List.getElem_map]
      rw [if_neg hne]
    · intro heq
      simp only [List.get_eq_getElem] at heq
      simp only [List.get_eq_getElem, List.getElem_map]
      rw [if_pos heq]
      exact ⟨rfl, rfl, rfl, rfl, rfl, rfl, rfl, rfl, rfl, rfl, rfl, rfl, rfl, rfl⟩
  · intro o v hv
    have hmem : ∃ d, d ∈ db.map (fun d => if d.id = visitorId then checkOutUpdate now d else d) ∧
        d.data.status = some "checked-in" ∧ v = mapDocToVisitor d := by
      cases o with
      | ok => exact mem_getActiveVisitorsPrimary.mp hv
      | failedPrecondition =>
        rw [show getActiveVisitors _ QueryOutcome.failedPrecondition =
          getActiveVisitorsFallback _ from rfl, activeVisitors_fallback_eq_primary] at hv
        exact mem_getActiveVisitorsPrimary.mp hv
      | otherError => exact absurd hv (List.not_mem_nil v)
    obtain ⟨d, hdm, hstat, hvd⟩ := hmem
    obtain ⟨d1, hd1, hfd⟩ := List.mem_map.mp hdm
    intro hvid
    by_cases hcase : d1.id = visitorId
    · rw [if_pos hcase] at hfd
      rw [← hfd] at hstat
      simp [checkOutUpdate] at hstat
    · rw [if_neg hcase] at hfd
      apply hcase
      rw [hfd]
      have : v.id = d.id := by rw [hvd]; rfl
      rw [← this, hvid]

/-- C2 witness: a one-visitor database in which that visitor is checked
out. -/
theorem checkOutVisitor_frame_effect_witness :
    ∃ db2, checkOutVisitor [⟨"v1", { DocData.empty with status := some "checked-in" }⟩] "v1" 5
        = some db2 ∧
      db2.length = [(⟨"v1", { DocData.empty with status := some "checked-in" }⟩ : Doc)].length ∧
      (∀ i : Fin [(⟨"v1", { DocData.empty with status := some "checked-in" }⟩ : Doc)].length,
        ∀ hi : i.val < db2.length,
        (([(⟨"v1", { DocData.empty with status := some "checked-in" }⟩ : Doc)].get i).id ≠ "v1" →
          db2.get ⟨i.val, hi⟩ = [(⟨"v1", { DocData.empty with status := some "checked-in" }⟩ : Doc)].get i) ∧
        (([(⟨"v1", { DocData.empty with status := some "checked-in" }⟩ : Doc)].get i).id = "v1" →
          (db2.get ⟨i.val, hi⟩).id = ([(⟨"v1", { DocData.empty with status := some "checked-in" }⟩ : Doc)].get i).id ∧
          (db2.get ⟨i.val, hi⟩).data.fullName = ([(⟨"v1", { DocData.empty with status := some "checked-in" }⟩ : Doc)].get i).data.fullName ∧
          (db2.get ⟨i.val, hi⟩).data.phoneNumber = ([(⟨"v1", { DocData.empty with status := some "checked-in" }⟩ : Doc)].get i).data.phoneNumber ∧
          (db2.get ⟨i.val, hi⟩).data.photoURL = ([(⟨"v1", { DocData.empty with status := some "checked-in" }⟩ : Doc)].get i).data.photoURL ∧
          (db2.get ⟨i.val, hi⟩).data.residentName = ([(⟨"v1", { DocData.empty with status := some "checked-in" }⟩ : Doc)].get i).data.residentName ∧
          (db2.get ⟨i.val, hi⟩).data.roomNumber = ([(⟨"v1", { DocData.empty with status := some "checked-in" }⟩ : Doc)].get i).data.roomNumber ∧
          (db2.get ⟨i.val, hi⟩).data.purpose = ([(⟨"v1", { DocData.empty with status := some "checked-in" }⟩ : Doc)].get i).data.purpose ∧
          (db2.get ⟨i.val, hi⟩).data.visitorIdNumber = ([(⟨"v1", { DocData.empty with status := some "checked-in" }⟩ : Doc)].get i).data.visitorIdNumber ∧
          (db2.get ⟨i.val, hi⟩).data.checkInTime = ([(⟨"v1", { DocData.empty with status := some "checked-in" }⟩ : Doc)].get i).data.checkInTime ∧
          (db2.get ⟨i.val, hi⟩).data.qrCode = ([(⟨"v1", { DocData.empty with status := some "checked-in" }⟩ : Doc)].get i).data.qrCode ∧
          (db2.get ⟨i.val, hi⟩).data.badgeNumber = ([(⟨"v1", { DocData.empty with status := some "checked-in" }⟩ : Doc)].get i).data.badgeNumber ∧
          (db2.get ⟨i.val, hi⟩).data.healthScreening = ([(⟨"v1", { DocData.empty with status := some "checked-in" }⟩ : Doc)].get i).data.healthScreening ∧
          (db2.get ⟨i.val, hi⟩).data.status = some "checked-out" ∧
          (db2.get ⟨i.val, hi⟩).data.checkOutTime = some 5)) ∧
      (∀ o : QueryOutcome, ∀ v ∈ getActiveVisitors db2 o, v.id ≠ "v1") :=
  checkOutVisitor_frame_effect
    [⟨"v1", { DocData.empty with status := some "checked-in" }⟩] "v1" 5
    ⟨⟨"v1", { DocData.empty with status := some "checked-in" }⟩, by simp, rfl⟩

/-- A concrete check-in form input used by witnesses. -/
def exInput : VisitorInput :=
  ⟨"Alice Example", "0712345678", none, "Rose Resident", "12", "family visit",
    none, none, none⟩

/-- C1 witness: a concrete check-in into the empty database, queried on the
primary path. -/
theorem checkInVisitor_appears_active_witness :
    QueryOutcome.ok ≠ QueryOutcome.otherError ∧
    (∃ payload : DocData,
      (checkInVisitor [] exInput false 1000 "ABC123" "doc1").1 = [] ++ [⟨"doc1", payload⟩] ∧
      payload.status = some "checked-in" ∧
      payload.checkInTime = some 1000 ∧
      (checkInVisitor [] exInput false 1000 "ABC123" "doc1").2 =
        mapDocToVisitor ⟨"doc1", payload⟩ ∧
      (checkInVisitor [] exInput false 1000 "ABC123" "doc1").2 ∈
        getActiveVisitors (checkInVisitor [] exInput false 1000 "ABC123" "doc1").1
          QueryOutcome.ok ∧
      (∀ (db₀ : DB) (w : Visitor),
        w ∈ getActiveVisitors db₀ QueryOutcome.ok ↔
          ∃ d, d ∈ db₀ ∧ d.data.status = some "checked-in" ∧ w = mapDocToVisitor d)) :=
  ⟨by decide,
   checkInVisitor_appears_active [] exInput false 1000 "ABC123" "doc1"
     QueryOutcome.ok (by decide)⟩

/-- A stored visitor checked in at the epoch (before the start of the current
day in the counterexample below). -/
def staleDoc : Doc :=
  ⟨"a", { DocData.empty with checkInTime := some 0, status := some "checked-in" }⟩

/-- C4 counterexample: with one visitor checked in before today, the primary
path of `getTodayVisitors` (which carries no date clause) returns that
visitor while the client-side fallback returns nothing, so the two paths are
not equivalent. -/
theorem getTodayVisitors_paths_differ :
    getTodayVisitors [staleDoc] msPerDay QueryOutcome.ok ≠
      getTodayVisitors [staleDoc] msPerDay QueryOutcome.failedPrecondition := by
  decide

/-- C4 amended: the fallback path of `getTodayVisitors` returns exactly the
visitors whose `checkInTime` is on or after the start of the current day,
newest first; the primary path, whose query has no date clause, returns every
stored visitor, newest first.  The two paths agree exactly on the states
where every stored visitor checked in on or after the start of the current
day. -/
theorem getTodayVisitors_amended (db : DB) (todayStart : Nat) :
    (∀ v, v ∈ getTodayVisitors db todayStart .failedPrecondition ↔
      ∃ d, d ∈ db ∧ v = mapDocToVisitor d ∧
        ∃ t, d.data.checkInTime = some t ∧ todayStart ≤ t) ∧
    (∀ v, v ∈ getTodayVisitors db todayStart .ok ↔ ∃ d, d ∈ db ∧ v = mapDocToVisitor d) ∧
    List.Sorted visitorNewerFirst (getTodayVisitors db todayStart .ok) ∧
    List.Sorted visitorNewerFirst (getTodayVisitors db todayStart .failedPrecondition) ∧
    ((∀ d, d ∈ db → ∃ t, d.data.checkInTime = some t ∧ todayStart ≤ t) →
      getTodayVisitors db todayStart .ok = getTodayVisitors db todayStart .failedPrecondition) := by
  have hp : ∀ d : Doc,
      ((match (mapDocToVisitor d).checkInTime with
        | some t => decide (todayStart ≤ t)
        | none => false) = true) ↔
        ∃ t, d.data.checkInTime = some t ∧ todayStart ≤ t := by
    intro d
    show ((match d.data.checkInTime with
      | some t => decide (todayStart ≤ t)
      | none => false) = true) ↔ _
    cases d.data.checkInTime <;> simp
  refine ⟨?_, ?_, ?_, ?_, ?_⟩
  · intro v
    show v ∈ getTodayVisitorsFallback db todayStart ↔ _
    unfold getTodayVisitorsFallback
    rw [mem_sortV_map_filter]
    constructor
    · rintro ⟨d, hmem, hpd, hv⟩
      exact ⟨d, hmem, hv, (hp d).mp hpd⟩
    · rintro ⟨d, hmem, hv, ht⟩
      exact ⟨d, hmem, (hp d).mpr ht, hv⟩
  · intro v
    show v ∈ getTodayVisitorsPrimary db ↔ _
    unfold getTodayVisitorsPrimary
    simp only [List.mem_map, List.mem_insertionSort]
    constructor
    · rintro ⟨d, hmem, hv⟩
      exact ⟨d, hmem, hv.symm⟩
    · rintro ⟨d, hmem, hv⟩
      exact ⟨d, hmem, hv.symm⟩
  · show List.Sorted visitorNewerFirst (getTodayVisitorsPrimary db)
    unfold getTodayVisitorsPrimary
    rw [map_insertionSort_docs]
    exact List.sorted_insertionSort visitorNewerFirst _
  · exact List.sorted_insertionSort visitorNewerFirst _
  · intro hall
    show getTodayVisitorsPrimary db = getTodayVisitorsFallback db todayStart
    unfold getTodayVisitorsPrimary getTodayVisitorsFallback
    rw [map_insertionSort_docs]
    have hfe : (db.map mapDocToVisitor).filter (fun v =>
        match v.checkInTime with
        | some t => decide (todayStart ≤ t)
        | none => false) = db.map mapDocToVisitor := by
      rw [List.filter_eq_self]
      rintro v hv
      obtain ⟨d, hd, rfl⟩ := List.mem_map.mp hv
      exact (hp d).mpr (hall d hd)
    rw [hfe]

/-- C6: `emergencyEvacuation` issues one independent write per listed id,
setting status `emergency-evacuated` and `checkOutTime` to the current time.
There is no atomicity: every listed visitor that exists is updated even when
another listed id fails, nothing is rolled back, and the only failure signal
is the aggregate rejection, which the UI handler turns into one fixed alert
text that names no individual id. -/
theorem emergencyEvacuation_independent_writes (db : DB) (ids : List String) (now : Nat) :
    (emergencyEvacuation db ids now).1.length = db.length ∧
    (∀ d, d ∈ db → d.id ∉ ids → d ∈ (emergencyEvacuation db ids now).1) ∧
    (∀ d, d ∈ db → d.id ∈ ids → evacuationUpdate now d ∈ (emergencyEvacuation db ids now).1) ∧
    ((emergencyEvacuation db ids now).2 = true ↔ ∃ i, i ∈ ids ∧ ∀ d, d ∈ db → d.id ≠ i) ∧
    (handleEmergencyEvacuation db ids now).1 = (emergencyEvacuation db ids now).1 ∧
    ((emergencyEvacuation db ids now).2 = true →
      (handleEmergencyEvacuation db ids now).2 =
        "Emergency evacuation failed. Please try again.") ∧
    ((emergencyEvacuation db ids now).2 = false →
      (handleEmergencyEvacuation db ids now).2 =
        "Emergency evacuation completed for " ++ toString ids.length ++ " visitors.") := by
  refine ⟨by simp [emergencyEvacuation], ?_, ?_, ?_, rfl, ?_, ?_⟩
  · intro d hd hnotin
    exact List.mem_map.mpr ⟨d, hd, by rw [if_neg (by simpa using hnotin)]⟩
  · intro d hd hin
    exact List.mem_map.mpr ⟨d, hd, by rw [if_pos (by simpa using hin)]⟩
  · show (ids.any (fun i => !(db.any (fun d => d.id == i)))) = true ↔ _
    simp [List.any_eq_true]
  · intro hfail
    show (if (emergencyEvacuation db ids now).2 then _ else _) = _
    rw [hfail]
    rfl
  · intro hok
    show (if (emergencyEvacuation db ids now).2 then _ else _) = _
    rw [hok]
    rfl

/-- C8: `generateVisitorIdNumber` is pure string concatenation of `VID-`, the
wall-clock milliseconds and the random suffix, so two distinct check-ins
(different fresh document ids, possibly different form data and database
states) that share a timestamp and a random draw receive the same visitor ID
number, stored and returned alike. -/
theorem generateVisitorIdNumber_no_uniqueness (db₁ db₂ : DB) (in₁ in₂ : VisitorInput)
    (now : Nat) (suffix : String) (id₁ id₂ : String) (hids : id₁ ≠ id₂) :
    generateVisitorIdNumber now suffix = "VID-" ++ toString now ++ "-" ++ suffix ∧
    (∃ p₁ : DocData, (checkInVisitor db₁ in₁ false now suffix id₁).1 = db₁ ++ [⟨id₁, p₁⟩] ∧
      p₁.visitorIdNumber = some (generateVisitorIdNumber now suffix)) ∧
    (∃ p₂ : DocData, (checkInVisitor db₂ in₂ false now suffix id₂).1 = db₂ ++ [⟨id₂, p₂⟩] ∧
      p₂.visitorIdNumber = some (generateVisitorIdNumber now suffix)) ∧
    (checkInVisitor db₁ in₁ false now suffix id₁).2.id ≠
      (checkInVisitor db₂ in₂ false now suffix id₂).2.id ∧
    (checkInVisitor db₁ in₁ false now suffix id₁).2.visitorIdNumber =
      (checkInVisitor db₂ in₂ false now suffix id₂).2.visitorIdNumber := by
  refine ⟨rfl, ⟨_, rfl, rfl⟩, ⟨_, rfl, rfl⟩, hids, rfl⟩

/-- C8 witness: two concrete check-ins at the same millisecond with the same
random draw. -/
theorem generateVisitorIdNumber_no_uniqueness_witness :
    ("doc1" : String) ≠ "doc2" ∧
    (generateVisitorIdNumber 1700000000000 "K3QZ7P" =
      "VID-" ++ toString 1700000000000 ++ "-" ++ "K3QZ7P" ∧
    (∃ p₁ : DocData, (checkInVisitor [] exInput false 1700000000000 "K3QZ7P" "doc1").1 =
        [] ++ [⟨"doc1", p₁⟩] ∧
      p₁.visitorIdNumber = some (generateVisitorIdNumber 1700000000000 "K3QZ7P")) ∧
    (∃ p₂ : DocData, (checkInVisitor [] exInput false 1700000000000 "K3QZ7P" "doc2").1 =
        [] ++ [⟨"doc2", p₂⟩] ∧
      p₂.visitorIdNumber = some (generateVisitorIdNumber 1700000000000 "K3QZ7P")) ∧
    (checkInVisitor [] exInput false 1700000000000 "K3QZ7P" "doc1").2.id ≠
      (checkInVisitor [] exInput false 1700000000000 "K3QZ7P" "doc2").2.id ∧
    (checkInVisitor [] exInput false 1700000000000 "K3QZ7P" "doc1").2.visitorIdNumber =
      (checkInVisitor [] exInput false 1700000000000 "K3QZ7P" "doc2").2.visitorIdNumber) :=
  ⟨by decide,
   generateVisitorIdNumber_no_uniqueness [] [] exInput exInput 1700000000000 "K3QZ7P"
     "doc1" "doc2" (by decide)⟩

/-- C9: `findVisitorByQRCode` never throws: a failed parse yields `null`, a
parsed payload with neither a non-empty `id` nor a non-empty `visitorId`
yields `null`, and otherwise the result is exactly
`findVisitorByIdNumber` applied to the extracted id. -/
theorem findVisitorByQRCode_safe (db : DB) (parsed : Option QRFields) (errored : Bool) :
    (parsed = none → findVisitorByQRCode db parsed errored = none) ∧
    (∀ f, parsed = some f → extractQRId f = none →
      findVisitorByQRCode db parsed errored = none) ∧
    (∀ f s, parsed = some f → extractQRId f = some s →
      findVisitorByQRCode db parsed errored = findVisitorByIdNumber db s errored) ∧
    (∀ f : QRFields, extractQRId f = none ↔
      ((f.id = none ∨ f.id = some "") ∧ (f.visitorId = none ∨ f.visitorId = some ""))) := by
  refine ⟨?_, ?_, ?_, ?_⟩
  · rintro rfl
    rfl
  · rintro f rfl hex
    simp [findVisitorByQRCode, hex]
  · rintro f s rfl hex
    simp [findVisitorByQRCode, hex]
  · rintro ⟨a, b⟩
    cases a <;> cases b <;> simp [extractQRId, jsTruthy] <;> split_ifs <;> simp_all

/-- C10: `mapDocToVisitor` is total and applies per-field defaults: missing
plain string fields become the empty string, missing timestamps, photo URL
and health screening stay `null`, and a document with no status is given
status `checked-in` — so such a record reads back as currently checked in,
for instance through `getAllVisitors`. -/
theorem mapDocToVisitor_total_defaults (d : Doc) (db : DB) :
    ((d.data.fullName = none → (mapDocToVisitor d).fullName = "") ∧
     (d.data.phoneNumber = none → (mapDocToVisitor d).phoneNumber = "") ∧
     (d.data.residentName = none → (mapDocToVisitor d).residentName = "") ∧
     (d.data.roomNumber = none → (mapDocToVisitor d).roomNumber = "") ∧
     (d.data.purpose = none → (mapDocToVisitor d).purpose = "") ∧
     (d.data.visitorIdNumber = none → (mapDocToVisitor d).visitorIdNumber = "") ∧
     (d.data.qrCode = none → (mapDocToVisitor d).qrCode = "") ∧
     (d.data.badgeNumber = none → (mapDocToVisitor d).badgeNumber = "")) ∧
    (mapDocToVisitor d).checkInTime = d.data.checkInTime ∧
    (mapDocToVisitor d).checkOutTime = d.data.checkOutTime ∧
    (d.data.photoURL = none → (mapDocToVisitor d).photoURL = none) ∧
    (d.data.healthScreening = none → (mapDocToVisitor d).healthScreening = none) ∧
    (d.data.status = none → (mapDocToVisitor d).status = "checked-in") ∧
    (d.data.status = none → d ∈ db →
      mapDocToVisitor d ∈ getAllVisitors db false ∧
        (mapDocToVisitor d).status = "checked-in") := by
  refine ⟨⟨?_, ?_, ?_, ?_, ?_, ?_, ?_, ?_⟩, rfl, rfl, ?_, ?_, ?_, ?_⟩
  · intro h; simp [mapDocToVisitor, jsOrStr, h]
  · intro h; simp [mapDocToVisitor, jsOrStr, h]
  · intro h; simp [mapDocToVisitor, jsOrStr, h]
  · intro h; simp [mapDocToVisitor, jsOrStr, h]
  · intro h; simp [mapDocToVisitor, jsOrStr, h]
  · intro h; simp [mapDocToVisitor, jsOrStr, h]
  · intro h; simp [mapDocToVisitor, jsOrStr, h]
  · intro h; simp [mapDocToVisitor, jsOrStr, h]
  · intro h; simp [mapDocToVisitor, jsTruthy, h]
  · intro h; simp [mapDocToVisitor, h]
  · intro h; simp [mapDocToVisitor, jsOrStr, h]
  · intro hstat hmem
    refine ⟨?_, by simp [mapDocToVisitor, jsOrStr, hstat]⟩
    show mapDocToVisitor d ∈ db.map mapDocToVisitor
    exact List.mem_map_of_mem mapDocToVisitor hmem
